import Mathlib

/-
  Verification of the Multilogin Window Manager (src/mlm_window_manager.py)
  against its natural-language specification.

  The program is a Tk GUI that enumerates OS windows, parses window titles
  into profile / tab labels, and lets the user show / minimize / close the
  matched windows.  We shallow-embed it as follows:

  * Python `str` values are modelled as `List Char` (one entry per code
    point).  The Python helpers `in`, `split`, `strip`, slicing `[:n]` and
    negative indexing are modelled by executable Lean functions with the
    same semantics (`pyIn`, `pySplit`, `pyStrip`, `List.take`, `pyGet`).
    ASCII-only case folding and ASCII digits are assumed, which covers all
    uses in the source.
  * The OS environment seen by `EnumWindows` is a list of `WinInfo`
    descriptors: visibility, title, owning pid, and the outcome of
    `OpenProcess` / `GetModuleFileNameExW` for that window (`none` models a
    raised exception, `some none` a null process handle, `some (some p)` a
    successful query returning path `p`).
  * The mutable GUI state (`self.profiles`, the checkbox variables, and
    `self.selected_index`) is an `AppState`.  The checkbox dictionary always
    holds exactly the indices `0 .. len(profiles)-1` (it is rebuilt together
    with `profiles` on every refresh), so it is modelled as a `List Bool`
    aligned with `profiles`.
  * Every OS / UI side effect a handler performs is recorded in an ordered
    `List Effect`; each user-triggered handler is a function
    `AppState → inputs → AppState × List Effect`, and `dispatch` enumerates
    all user actions of the UI.  Dialog answers and the text in the URL
    entry are inputs of the corresponding action.
  * Python `%` on integers agrees with Lean's `Int.emod` for a positive
    modulus (both return a value in `[0, n)`), which is the only way the
    source uses it.
-/

set_option linter.unusedVariables false

namespace MLM

/-- Python strings, modelled as lists of code points. -/
abbrev PyStr := List Char

/-- Whether `needle` is a prefix of `hay`; building block for the Python
substring test and for `str.startswith`. -/
def pyStartsWith : PyStr → PyStr → Bool
  | [], _ => true
  | _ :: _, [] => false
  | a :: as, b :: bs => a == b && pyStartsWith as bs

/-- Python `needle in hay` substring test (an empty needle is contained in
everything, as in Python). -/
def pyIn (needle : PyStr) : PyStr → Bool
  | [] => pyStartsWith needle []
  | c :: rest => pyStartsWith needle (c :: rest) || pyIn needle rest

/-- Worker for `pySplit`.  `fuel` bounds the recursion depth; `pySplit`
supplies `s.length`, which is enough because every step consumes at least
one character, so the `0, s` row is never reached from `pySplit` with a
non-empty ``s``. -/
def pySplitGo (sep : PyStr) : Nat → PyStr → List PyStr
  | _, [] => [[]]
  | 0, s => [s]
  | fuel + 1, c :: rest =>
    if pyStartsWith sep (c :: rest) then
      [] :: pySplitGo sep fuel (List.drop (sep.length - 1) rest)
    else
      match pySplitGo sep fuel rest with
      | [] => [[c]]
      | p :: ps => (c :: p) :: ps

/-- Python `s.split(sep)` for a non-empty separator: non-overlapping
occurrences are removed left to right and the fragments (including empty
ones) are returned. -/
def pySplit (sep s : PyStr) : List PyStr := pySplitGo sep s.length s

/-- Python `s.strip()`: remove leading and trailing whitespace. -/
def pyStrip (s : PyStr) : PyStr :=
  ((s.dropWhile Char.isWhitespace).reverse.dropWhile Char.isWhitespace).reverse

/-- Python list indexing `l[i]`, including negative indices counting from
the end; `none` models an `IndexError`. -/
def pyGet {α : Type} (l : List α) (i : Int) : Option α :=
  if 0 ≤ i then l.get? i.toNat
  else if 0 ≤ i + l.length then l.get? (i + l.length).toNat
  else none

/-- Models `re.search(r'(DC\d+)', title)` from `extract_profile_name`:
the leftmost occurrence of `DC` followed by at least one digit, the digit
run taken greedily.  Returns the matched text. -/
def dcSearch : PyStr → Option PyStr
  | [] => none
  | c :: rest =>
    match c, rest with
    | 'D', 'C' :: d :: tail =>
      if d.isDigit then some ('D' :: 'C' :: d :: tail.takeWhile Char.isDigit)
      else dcSearch rest
    | _, _ => dcSearch rest

/-- The `" - "` separator used by the title parsers. -/
def sepDash : PyStr := [' ', '-', ' ']

/-- The `" --"` separator of `extract_profile_name` pattern 3. -/
def sepDashDash : PyStr := [' ', '-', '-']

/-- The `" |"` separator of `extract_profile_name` pattern 3. -/
def sepPipe : PyStr := [' ', '|']

/-- The `" â€”"` separator of `extract_profile_name` pattern 3 (the source
file contains a mojibake em dash: U+00E2, U+20AC, U+201D). -/
def sepEm : PyStr := [' ', Char.ofNat 0xE2, Char.ofNat 0x20AC, Char.ofNat 0x201D]

/-- The `"..."` suffix appended by the truncating parsers. -/
def ellipsis : PyStr := ['.', '.', '.']

/-- Fall-through of `extract_profile_name` (its pattern 3 loop over
`" --"`, `" |"`, `" â€”"` and the final default return). -/
def profileFallback (title : PyStr) : PyStr :=
  if pyIn sepDashDash title then ((pySplit sepDashDash title).headD []).take 20
  else if pyIn sepPipe title then ((pySplit sepPipe title).headD []).take 20
  else if pyIn sepEm title then ((pySplit sepEm title).headD []).take 20
  else if 20 < title.length then title.take 20 ++ ellipsis
  else title

/-- `extract_profile_name` from the source: `DC\d+` match first, then the
part before `" - "` (truncated to 20 plus an ellipsis), then the pattern-3
separators, then the truncated title itself. -/
def extract_profile_name (title : PyStr) : PyStr :=
  match dcSearch title with
  | some m => m
  | none =>
    if pyIn sepDash title then
      let parts := pySplit sepDash title
      if 2 ≤ parts.length then
        let p0 := parts.headD []
        if 20 < p0.length then p0.take 20 ++ ellipsis else p0
      else profileFallback title
    else profileFallback title

/-- `extract_tab_title` from the source: when `" - "` occurs, the
second-to-last fragment (or the last one if there are exactly two),
otherwise the whole title; either way truncated to 40 characters plus an
ellipsis when longer than 40. -/
def extract_tab_title (title : PyStr) : PyStr :=
  if pyIn sepDash title then
    let parts := pySplit sepDash title
    if 2 ≤ parts.length then
      let tab := if 2 < parts.length then parts.getD (parts.length - 2) []
                 else parts.getLastD []
      if 40 < tab.length then tab.take 40 ++ ellipsis else tab
    else if 40 < title.length then title.take 40 ++ ellipsis else title
  else if 40 < title.length then title.take 40 ++ ellipsis else title

/-- The `s[:40] + "..." if len(s) > 40 else s` truncation used by
`extract_tab_title`, factored out for stating its bound. -/
def truncate40 (s : PyStr) : PyStr :=
  if 40 < s.length then s.take 40 ++ ellipsis else s

/-- The raw tab segment `extract_tab_title` selects before truncating. -/
def tabSeg (title : PyStr) : PyStr :=
  if pyIn sepDash title then
    let parts := pySplit sepDash title
    if 2 ≤ parts.length then
      if 2 < parts.length then parts.getD (parts.length - 2) []
      else parts.getLastD []
    else title
  else title

/-- `is_multilogin_profile` from the source. -/
def is_multilogin_profile (title : PyStr) : Bool :=
  [['-', '-', 'p', 'r', 'o', 'x', 'y'], ['D', 'C'],
   ['P', 'r', 'o', 'f', 'i', 'l', 'e'], ['M', 'i', 'm', 'i', 'c']].any
    (fun ind => pyIn ind title)

/-- One record of the `windows` list built by `get_multilogin_windows`:
the dict `{"hwnd": …, "title": …, "profile": …, "tab": …, "pid": …}`. -/
structure WindowRecord where
  hwnd : Nat
  title : PyStr
  profile : PyStr
  tab : PyStr
  pid : Nat
deriving Repr, DecidableEq

/-- What the OS reports about one enumerated window.  `procOpen` describes
the process query: `none` models an exception raised inside the `try`
block, `some none` models `OpenProcess` returning a null handle, and
`some (some p)` a successful `GetModuleFileNameExW` yielding path `p` (an
empty path models a failed name query that leaves the buffer empty). -/
structure WinInfo where
  hwnd : Nat
  visible : Bool
  title : PyStr
  pid : Nat
  procOpen : Option (Option PyStr)
deriving Repr, DecidableEq

/-- The body of `enum_callback` up to its unconditional `return True`:
the record appended for `w`, if any.  Mirrors the visibility and
title-length guards, the process query with its `try/except: pass`, the
`exe_path.value.split("\\")[-1].lower()` computation and the
mimic/chrome test. -/
def enum_try (w : WinInfo) : Option WindowRecord :=
  if w.visible then
    if 0 < w.title.length then
      match w.procOpen with
      | none => none
      | some none => none
      | some (some exePath) =>
        let exe_name := ((pySplit ['\\'] exePath).getLastD []).map Char.toLower
        if pyIn ['m', 'i', 'm', 'i', 'c'] exe_name
            || (pyIn ['c', 'h', 'r', 'o', 'm', 'e'] exe_name
                  && is_multilogin_profile w.title) then
          some { hwnd := w.hwnd, title := w.title,
                 profile := extract_profile_name w.title,
                 tab := extract_tab_title w.title, pid := w.pid }
        else none
    else none
  else none

/-- `enum_callback` from the source: it ends in `return True` on every
path (also after the swallowed exception), alongside its effect of
possibly appending one record. -/
def enum_callback (w : WinInfo) : Bool × Option WindowRecord := (true, enum_try w)

/-- `EnumWindows` semantics: windows are visited in order and enumeration
stops as soon as the callback returns `False`. -/
def enumGo : List WinInfo → List WindowRecord → List WindowRecord
  | [], acc => acc
  | w :: ws, acc =>
    let step := enum_callback w
    let acc' := match step.2 with
      | some r => acc ++ [r]
      | none => acc
    if step.1 then enumGo ws acc' else acc'

/-- `get_multilogin_windows` from the source, as a function of the
enumerated OS window list. -/
def get_multilogin_windows (env : List WinInfo) : List WindowRecord := enumGo env []

/-- Windows API constants used by the handlers. -/
def SW_MINIMIZE : Nat := 6

/-- `SW_RESTORE` show command. -/
def SW_RESTORE : Nat := 9

/-- `WM_CLOSE` window message. -/
def WM_CLOSE : Nat := 0x0010

/-- Every observable OS / UI side effect a handler can perform, in program
order.  `afterSchedule d` is `self.root.after(d, self.refresh_profiles)`:
it marshals a refresh onto the Tk event queue instead of running it
directly.  `raiseError` marks a Python exception escaping a handler. -/
inductive Effect where
  | enumWindows
  | parseTitle (title : PyStr)
  | showWindow (hwnd : Nat) (cmd : Nat)
  | setForeground (hwnd : Nat)
  | postMessage (hwnd : Nat) (msg : Nat)
  | keybdEvent (vk : Nat) (flags : Nat)
  | clipboardClear
  | clipboardAppend (text : PyStr)
  | setStatus (text : PyStr)
  | confirmDialog (question : PyStr) (answer : Bool)
  | warnDialog (text : PyStr)
  | destroyRows
  | renderRow (index : Nat) (profile tab : PyStr) (checked : Bool)
  | afterSchedule (delayMs : Nat)
  | sleep (ms : Nat)
  | readSpinner
  | uiConfig
  | raiseError
  | fileWrite (path : PyStr)
  | fileRead (path : PyStr)
deriving Repr, DecidableEq

/-- OS window-control calls: show / focus / close and the synthetic
keyboard and clipboard events of the URL injection. -/
def isWindowControl : Effect → Bool
  | .showWindow _ _ => true
  | .setForeground _ => true
  | .postMessage _ _ => true
  | .keybdEvent _ _ => true
  | .clipboardClear => true
  | .clipboardAppend _ => true
  | _ => false

/-- Mutations of the Tk UI (labels, rows, window attributes). -/
def isUiMutation : Effect → Bool
  | .setStatus _ => true
  | .destroyRows => true
  | .renderRow _ _ _ _ => true
  | .uiConfig => true
  | _ => false

/-- Title-parsing step of the refresh pipeline. -/
def isParseFx : Effect → Bool
  | .parseTitle _ => true
  | _ => false

/-- Row-rendering step of the refresh pipeline. -/
def isRenderFx : Effect → Bool
  | .renderRow _ _ _ _ => true
  | _ => false

/-- Local filesystem write. -/
def isFileWrite : Effect → Bool
  | .fileWrite _ => true
  | _ => false

/-- The mutable state of `MultiloginWindowManager`: `self.profiles`,
the checkbox variables (always rebuilt index-aligned with `profiles`),
and `self.selected_index` (a Python int or `None`). -/
structure AppState where
  profiles : List WindowRecord
  checks : List Bool
  selectedIndex : Option Int
deriving Repr, DecidableEq

/-- Status-bar text `f"Found {n} profile(s)"`. -/
def statusFound (n : Nat) : PyStr :=
  "Found ".toList ++ (toString n).toList ++ " profile(s)".toList

/-- Status-bar text `"No profiles selected"`. -/
def statusNoSel : PyStr := "No profiles selected".toList

/-- Status-bar text `f"Showing: {profile}"`. -/
def statusShowing (p : PyStr) : PyStr := "Showing: ".toList ++ p

/-- Status-bar text `f"Showing {n} selected profiles"`. -/
def statusShowingN (n : Nat) : PyStr :=
  "Showing ".toList ++ (toString n).toList ++ " selected profiles".toList

/-- Status-bar text `f"Minimized {n} selected profiles"`. -/
def statusMinimizedN (n : Nat) : PyStr :=
  "Minimized ".toList ++ (toString n).toList ++ " selected profiles".toList

/-- Status-bar text `f"Closing {n} profiles..."`. -/
def statusClosingN (n : Nat) : PyStr :=
  "Closing ".toList ++ (toString n).toList ++ " profiles...".toList

/-- Status-bar text `f"Showing all {n} profiles"`. -/
def statusShowAll (n : Nat) : PyStr :=
  "Showing all ".toList ++ (toString n).toList ++ " profiles".toList

/-- Status-bar text `f"Minimized all {n} profiles"`. -/
def statusMinAll (n : Nat) : PyStr :=
  "Minimized all ".toList ++ (toString n).toList ++ " profiles".toList

/-- Status-bar text `"Closing all profiles..."`. -/
def statusClosingAll : PyStr := "Closing all profiles...".toList

/-- Status-bar text `f"Selected all {n} profiles"`. -/
def statusSelectedAll (n : Nat) : PyStr :=
  "Selected all ".toList ++ (toString n).toList ++ " profiles".toList

/-- Status-bar text `"Deselected all profiles"`. -/
def statusDeselected : PyStr := "Deselected all profiles".toList

/-- Status-bar text `f"Inverted selection: {n} selected"`. -/
def statusInverted (n : Nat) : PyStr :=
  "Inverted selection: ".toList ++ (toString n).toList ++ " selected".toList

/-- Status-bar text `f"Opened URL in {n} profiles"`. -/
def statusOpened (n : Nat) : PyStr :=
  "Opened URL in ".toList ++ (toString n).toList ++ " profiles".toList

/-- Confirmation question `f"Close {n} selected profiles?"`. -/
def confirmCloseChecked (n : Nat) : PyStr :=
  "Close ".toList ++ (toString n).toList ++ " selected profiles?".toList

/-- Confirmation question `f"Close all {n} profiles?"`. -/
def confirmCloseAll (n : Nat) : PyStr :=
  "Close all ".toList ++ (toString n).toList ++ " profiles?".toList

/-- Confirmation question of `open_url_checked` when nothing is checked. -/
def confirmNoSelection : PyStr :=
  "No profiles selected. Apply to ALL profiles?".toList

/-- Warning text of `open_url_checked`. -/
def warnUrl : PyStr := "Please enter a valid URL".toList

/-- The `old_states` dictionary built at the top of `refresh_profiles`:
title of profile `i` mapped to its checkbox value, inserted in index
order (so a later duplicate title overwrites an earlier one, as in a
Python dict). -/
def old_states (profiles : List WindowRecord) (checks : List Bool) :
    List (PyStr × Bool) :=
  (profiles.zip checks).map (fun pc => (pc.1.title, pc.2))

/-- `old_states.get(title, False)`: the value of the last insertion with
this key, `false` when the key is absent. -/
def dictGet (pairs : List (PyStr × Bool)) (key : PyStr) : Bool :=
  pairs.foldl (fun acc pc => if pc.1 = key then pc.2 else acc) false

/-- `refresh_profiles` from the source: save the checkbox states keyed by
title, re-enumerate the windows, rebuild the checkbox variables (new
titles default to unchecked), destroy and re-render the rows and update
the status bar.  The trace records the pipeline: enumeration (with the
per-window title parsing that happens inside the callback), then row
teardown and re-rendering, then the status update. -/
def refresh_profiles (st : AppState) (env : List WinInfo) :
    AppState × List Effect :=
  let olds := old_states st.profiles st.checks
  let profiles := get_multilogin_windows env
  let checks := profiles.map (fun p => dictGet olds p.title)
  let pollFx := Effect.enumWindows :: profiles.map (fun r => Effect.parseTitle r.title)
  let renderFx := (profiles.zip checks).enum.map
    (fun ic => Effect.renderRow ic.1 ic.2.1.profile ic.2.1.tab ic.2.2)
  ({ st with profiles := profiles, checks := checks },
   pollFx ++ (Effect.destroyRows :: renderFx) ++ [Effect.setStatus (statusFound profiles.length)])

/-- `get_checked_profiles` from the source: the profiles whose checkbox
variable is set, in index order. -/
def get_checked_profiles (st : AppState) : List WindowRecord :=
  (st.profiles.zip st.checks).filterMap (fun pc => if pc.2 then some pc.1 else none)

/-- Effects of `show_profile(index)`: guarded by `index < len(profiles)`,
then restore, focus and a status update.  A negative index would index
from the end of the Python list (never reached by the callers). -/
def show_profile_fx (st : AppState) (index : Int) : List Effect :=
  if index < (st.profiles.length : Int) then
    match pyGet st.profiles index with
    | some p => [Effect.showWindow p.hwnd SW_RESTORE, Effect.setForeground p.hwnd,
                 Effect.setStatus (statusShowing p.profile)]
    | none => [Effect.raiseError]
  else []

/-- `nav_prev` from the source: no-op on an empty profile list, otherwise
select index 0 when nothing was selected, else the previous index modulo
the list length, and show that profile. -/
def nav_prev (st : AppState) : AppState × List Effect :=
  if st.profiles.length = 0 then (st, [])
  else
    let idx : Int := match st.selectedIndex with
      | none => 0
      | some i => (i - 1) % (st.profiles.length : Int)
    let st' := { st with selectedIndex := some idx }
    (st', show_profile_fx st' idx)

/-- `nav_next` from the source: like `nav_prev` with the next index. -/
def nav_next (st : AppState) : AppState × List Effect :=
  if st.profiles.length = 0 then (st, [])
  else
    let idx : Int := match st.selectedIndex with
      | none => 0
      | some i => (i + 1) % (st.profiles.length : Int)
    let st' := { st with selectedIndex := some idx }
    (st', show_profile_fx st' idx)

/-- `nav_top` from the source. -/
def nav_top (st : AppState) : AppState × List Effect :=
  if st.profiles.length = 0 then (st, [])
  else
    let st' := { st with selectedIndex := some 0 }
    (st', show_profile_fx st' 0)

/-- `show_current` from the source. -/
def show_current (st : AppState) : AppState × List Effect :=
  match st.selectedIndex with
  | none => (st, [])
  | some i =>
    if i < (st.profiles.length : Int) then (st, show_profile_fx st i) else (st, [])

/-- `on_profile_click` from the source: toggle the row's checkbox when the
index exists and remember it as the selected index. -/
def on_profile_click (st : AppState) (index : Nat) : AppState × List Effect :=
  ({ st with
      checks := st.checks.set index (!(st.checks.getD index false)),
      selectedIndex := some (index : Int) }, [])

/-- `select_all` from the source. -/
def select_all (st : AppState) : AppState × List Effect :=
  ({ st with checks := st.checks.map (fun _ => true) },
   [Effect.setStatus (statusSelectedAll st.profiles.length)])

/-- `deselect_all` from the source. -/
def deselect_all (st : AppState) : AppState × List Effect :=
  ({ st with checks := st.checks.map (fun _ => false) },
   [Effect.setStatus statusDeselected])

/-- `invert_selection` from the source: flip every checkbox, then report
the number of now-checked profiles. -/
def invert_selection (st : AppState) : AppState × List Effect :=
  let st' := { st with checks := st.checks.map (fun b => !b) }
  (st', [Effect.setStatus (statusInverted (get_checked_profiles st').length)])

/-- `show_checked` from the source. -/
def show_checked (st : AppState) : AppState × List Effect :=
  let checked := get_checked_profiles st
  if checked = [] then (st, [Effect.setStatus statusNoSel])
  else
    (st, (checked.map (fun p =>
        [Effect.showWindow p.hwnd SW_RESTORE, Effect.setForeground p.hwnd,
         Effect.sleep 100])).flatten
      ++ [Effect.setStatus (statusShowingN checked.length)])

/-- `minimize_checked` from the source. -/
def minimize_checked (st : AppState) : AppState × List Effect :=
  let checked := get_checked_profiles st
  if checked = [] then (st, [Effect.setStatus statusNoSel])
  else
    (st, checked.map (fun p => Effect.showWindow p.hwnd SW_MINIMIZE)
      ++ [Effect.setStatus (statusMinimizedN checked.length)])

/-- `close_checked` from the source: with a non-empty checked set it shows
the confirmation dialog (its answer is an input of the action); only on a
`yes` does it post `WM_CLOSE` to each checked window, set the status and
schedule a refresh one second later. -/
def close_checked (st : AppState) (answer : Bool) : AppState × List Effect :=
  let checked := get_checked_profiles st
  if checked = [] then (st, [Effect.setStatus statusNoSel])
  else if answer then
    (st, Effect.confirmDialog (confirmCloseChecked checked.length) true ::
      (checked.map (fun p => Effect.postMessage p.hwnd WM_CLOSE)
        ++ [Effect.setStatus (statusClosingN checked.length),
            Effect.afterSchedule 1000]))
  else (st, [Effect.confirmDialog (confirmCloseChecked checked.length) false])

/-- `show_all` from the source. -/
def show_all (st : AppState) : AppState × List Effect :=
  (st, st.profiles.map (fun p => Effect.showWindow p.hwnd SW_RESTORE)
    ++ [Effect.setStatus (statusShowAll st.profiles.length)])

/-- `minimize_all` from the source. -/
def minimize_all (st : AppState) : AppState × List Effect :=
  (st, st.profiles.map (fun p => Effect.showWindow p.hwnd SW_MINIMIZE)
    ++ [Effect.setStatus (statusMinAll st.profiles.length)])

/-- `close_all` from the source: `if self.profiles and askyesno(...)` — no
dialog at all on an empty list, and `WM_CLOSE` posts only on a `yes`. -/
def close_all (st : AppState) (answer : Bool) : AppState × List Effect :=
  if st.profiles = [] then (st, [])
  else if answer then
    (st, Effect.confirmDialog (confirmCloseAll st.profiles.length) true ::
      (st.profiles.map (fun p => Effect.postMessage p.hwnd WM_CLOSE)
        ++ [Effect.setStatus statusClosingAll, Effect.afterSchedule 1000]))
  else (st, [Effect.confirmDialog (confirmCloseAll st.profiles.length) false])

/-- `send_url_to_window` from the source: Ctrl+L, paste via clipboard with
Ctrl+V, then Enter (the `hwnd` argument is unused by the source too — the
key events are global). -/
def send_url_fx (hwnd : Nat) (url : PyStr) : List Effect :=
  [Effect.keybdEvent 0x11 0, Effect.keybdEvent 0x4C 0,
   Effect.keybdEvent 0x4C 2, Effect.keybdEvent 0x11 2,
   Effect.sleep 100, Effect.clipboardClear, Effect.clipboardAppend url,
   Effect.keybdEvent 0x11 0, Effect.keybdEvent 0x56 0,
   Effect.keybdEvent 0x56 2, Effect.keybdEvent 0x11 2,
   Effect.sleep 100, Effect.keybdEvent 0x0D 0, Effect.keybdEvent 0x0D 2]

/-- Per-profile body of the `open_url_checked` loop. -/
def open_one_fx (p : WindowRecord) (url : PyStr) : List Effect :=
  [Effect.showWindow p.hwnd SW_RESTORE, Effect.setForeground p.hwnd, Effect.sleep 200]
    ++ send_url_fx p.hwnd url ++ [Effect.sleep 300]

/-- The `open_url_checked` loop over a profile list plus its final status
update. -/
def open_loop_fx (ps : List WindowRecord) (url : PyStr) : List Effect :=
  (ps.map (fun p => open_one_fx p url)).flatten
    ++ [Effect.setStatus (statusOpened ps.length)]

/-- `open_url_checked` from the source: validate and normalise the entry
text, fall back to all profiles after a confirmation when nothing is
checked, then drive each browser through `send_url_to_window`. -/
def open_url_checked (st : AppState) (entryText : PyStr) (applyAllAnswer : Bool) :
    AppState × List Effect :=
  let url0 := pyStrip entryText
  if url0 = [] ∨ url0 = "https://".toList then (st, [Effect.warnDialog warnUrl])
  else
    let url := if pyStartsWith ['h', 't', 't', 'p'] url0 then url0
               else "https://".toList ++ url0
    let checked := get_checked_profiles st
    if checked = [] then
      if applyAllAnswer then
        (st, Effect.confirmDialog confirmNoSelection true :: open_loop_fx st.profiles url)
      else (st, [Effect.confirmDialog confirmNoSelection false])
    else (st, open_loop_fx checked url)

/-- `toggle_ontop` / `toggle_hotkeys`: pure UI configuration, no OS window
calls and no effect on the profile model. -/
def toggle_ui (st : AppState) : AppState × List Effect := (st, [Effect.uiConfig])

/-- Every user-triggered handler of the UI (buttons, row clicks, hotkeys);
dialog answers, the URL entry text and the OS window environment of a
manual refresh are inputs of the corresponding action. -/
inductive UserAction where
  | refresh (env : List WinInfo)
  | navPrev
  | navNext
  | navTop
  | showCurrent
  | profileClick (index : Nat)
  | profileDoubleClick (index : Nat)
  | selectAll
  | deselectAll
  | invertSelection
  | showChecked
  | minimizeChecked
  | closeChecked (answer : Bool)
  | closeAll (answer : Bool)
  | openUrl (entryText : PyStr) (applyAllAnswer : Bool)
  | showAll
  | minimizeAll
  | toggleOnTop
  | toggleHotkeys
deriving Repr

/-- Dispatch of a user action to its handler, as wired in `create_ui` and
`setup_hotkeys`.  All of these run synchronously on the Tk UI thread. -/
def dispatch (a : UserAction) (st : AppState) : AppState × List Effect :=
  match a with
  | .refresh env => refresh_profiles st env
  | .navPrev => nav_prev st
  | .navNext => nav_next st
  | .navTop => nav_top st
  | .showCurrent => show_current st
  | .profileClick i => on_profile_click st i
  | .profileDoubleClick i => (st, show_profile_fx st (i : Int))
  | .selectAll => select_all st
  | .deselectAll => deselect_all st
  | .invertSelection => invert_selection st
  | .showChecked => show_checked st
  | .minimizeChecked => minimize_checked st
  | .closeChecked answer => close_checked st answer
  | .closeAll answer => close_all st answer
  | .openUrl entry answer => open_url_checked st entry answer
  | .showAll => show_all st
  | .minimizeAll => minimize_all st
  | .toggleOnTop => toggle_ui st
  | .toggleHotkeys => toggle_ui st

/-- One iteration of the `auto_refresh` loop body running on the
background thread: read the interval spinner (`none` models `int(...)`
raising, handled by the `except` with fallback 3), sleep, and — while
still running — marshal `refresh_profiles` onto the UI thread with
`self.root.after(0, ...)`.  The background thread itself never touches
the profile model. -/
def auto_refresh_tick (st : AppState) (spinnerVal : Option Nat) (running : Bool) :
    AppState × List Effect :=
  let interval := match spinnerVal with
    | some n => n
    | none => 3
  (st, [Effect.readSpinner, Effect.sleep (interval * 1000)]
    ++ (if running then [Effect.afterSchedule 0] else []))

/-- The background threads created by `__init__`: exactly one, the
`auto_refresh` timer thread. -/
inductive ThreadSpec where
  | autoRefreshThread
deriving Repr, DecidableEq

/-- Threads started in `__init__` (line 60 of the source). -/
def backgroundThreads : List ThreadSpec := [ThreadSpec.autoRefreshThread]

/-- Filesystem activity of `main()`: the only filesystem access in the
whole program is the optional `root.iconbitmap("icon.ico")` read (inside
`try/except`).  Nothing in the source writes a file. -/
def startup_fx : List Effect := [Effect.fileRead "icon.ico".toList]

/-- A mimic browser executable path, for concrete test environments. -/
def mimicPath : PyStr := "C:\\Apps\\mimic.exe".toList

/-- First window of the de-duplication counterexample: visible, titled,
owned by pid 7, running mimic. -/
def w1 : WinInfo := ⟨101, true, ['A', 'l', 'p', 'h', 'a'], 7, some (some mimicPath)⟩

/-- Second window of the de-duplication counterexample: a different
window of the same pid 7. -/
def w2 : WinInfo := ⟨102, true, ['B', 'e', 't', 'a'], 7, some (some mimicPath)⟩

/-- A window whose process query raises, for the error-handling witness. -/
def wFail : WinInfo := ⟨201, true, ['Z', 'e', 't', 'a'], 9, none⟩

/-- Window record with title `"A"`, as produced for `envA` windows. -/
def recA (h : Nat) : WindowRecord := ⟨h, ['A'], ['A'], ['A'], 7⟩

/-- State before the duplicate-title refresh: two windows both titled
`"A"`, the first checked, the second not. -/
def st10 : AppState := ⟨[recA 1, recA 2], [true, false], none⟩

/-- Environment re-producing the same two `"A"`-titled windows. -/
def env10 : List WinInfo :=
  [⟨1, true, ['A'], 7, some (some mimicPath)⟩,
   ⟨2, true, ['A'], 7, some (some mimicPath)⟩]

/-- State with three profiles but a stale out-of-range
`selected_index = 5` (reachable: select row 5 among six profiles, then a
refresh shrinks the list to three — `refresh_profiles` never resets
`selected_index`). -/
def st8 : AppState :=
  ⟨[⟨1, ['A'], ['A'], ['A'], 7⟩, ⟨2, ['B'], ['B'], ['B'], 8⟩,
    ⟨3, ['C'], ['C'], ['C'], 9⟩], [false, false, false], some 5⟩

/-- Post of a window message (only ever `WM_CLOSE` in the source). -/
def isPostMsg : Effect → Bool
  | .postMessage _ _ => true
  | _ => false

/-- State with one profile titled `"A"` whose checkbox is set; used by
concrete witnesses. -/
def stC3 : AppState := ⟨[recA 1], [true], none⟩

/-- State with two profiles and a valid `selected_index = 1`, for the
navigation round-trip witness. -/
def st8w : AppState :=
  ⟨[⟨1, ['A'], ['A'], ['A'], 7⟩, ⟨2, ['B'], ['B'], ['B'], 8⟩], [false, false], some 1⟩

/-- Auxiliary: `enumGo` threads its accumulator on the left. -/
theorem enumGo_append (ws : List WinInfo) :
    ∀ acc, enumGo ws acc = acc ++ enumGo ws [] := by
  induction ws with
  | nil => intro acc; simp [enumGo]
  | cons w ws ih =>
    intro acc
    cases htry : enum_try w with
    | none => simp [enumGo, enum_callback, htry, ih acc]
    | some r =>
      simp only [enumGo, enum_callback, htry]
      rw [ih (acc ++ [r])]
      conv_rhs => rw [ih ([] ++ [r])]
      simp

/-- Auxiliary: the enumeration collects exactly one record per window the
callback accepts, in enumeration order — the callback always returns
`True`, so `EnumWindows` never stops early. -/
theorem get_windows_filterMap (env : List WinInfo) :
    get_multilogin_windows env = env.filterMap (fun w => (enum_callback w).2) := by
  induction env with
  | nil => rfl
  | cons w ws ih =>
    cases htry : enum_try w with
    | none =>
      simpa [get_multilogin_windows, enumGo, enum_callback, htry,
        List.filterMap_cons] using ih
    | some r =>
      simp only [get_multilogin_windows, enumGo, enum_callback, htry,
        List.filterMap_cons]
      rw [enumGo_append ws ([] ++ [r])]
      simpa [get_multilogin_windows] using ih

/-- Auxiliary: the truncation `s[:40] + "..."` never exceeds 43 code
points. -/
theorem truncate40_length (s : PyStr) : (truncate40 s).length ≤ 43 := by
  unfold truncate40
  split
  · simp only [List.length_append, List.length_take, ellipsis, List.length_cons,
      List.length_nil]
    omega
  · omega

/-- Auxiliary: `extract_tab_title` is the truncation of the segment it
selects. -/
theorem extract_tab_eq (title : PyStr) :
    extract_tab_title title = truncate40 (tabSeg title) := by
  by_cases h1 : pyIn sepDash title = true <;>
    by_cases h2 : 2 ≤ (pySplit sepDash title).length <;>
      simp [extract_tab_title, tabSeg, truncate40, h1, h2]

/-- C1 counterexample: two distinct visible mimic windows owned by the
same process id 7 both appear in the result of `get_multilogin_windows` —
the enumeration performs no de-duplication by pid, so two records of one
poll share pid 7. -/
theorem c1_pid_dedup_counterexample :
    (get_multilogin_windows [w1, w2]).map WindowRecord.pid = [7, 7] ∧
    2 ≤ (get_multilogin_windows [w1, w2]).length := by decide

/-- C1 (amended): for every poll, `get_multilogin_windows` returns one
record per enumerated window that passes the visibility / title / process
filters, in enumeration order and with no de-duplication by process id —
so two records of one poll may share a pid. -/
theorem c1_no_pid_dedup (env : List WinInfo) :
    get_multilogin_windows env = env.filterMap (fun w => (enum_callback w).2) :=
  get_windows_filterMap env

/-- C4: a window whose process cannot be opened (exception or null
handle) or whose name query leaves an empty path is silently omitted:
the callback produces no record, still returns `True`, and the
enumeration result is exactly that of the remaining windows. -/
theorem c4_failed_process_skipped (pre post : List WinInfo) (w : WinInfo)
    (h : w.procOpen = none ∨ w.procOpen = some none ∨ w.procOpen = some (some [])) :
    (enum_callback w).1 = true ∧ (enum_callback w).2 = none ∧
    get_multilogin_windows (pre ++ w :: post) = get_multilogin_windows (pre ++ post) := by
  have htry : enum_try w = none := by
    unfold enum_try
    rcases h with h | h | h <;> rw [h] <;> split <;>
      first
      | rfl
      | (split <;> rfl)
  refine ⟨rfl, ?_, ?_⟩
  · simpa [enum_callback] using htry
  · rw [get_windows_filterMap, get_windows_filterMap, List.filterMap_append,
      List.filterMap_append, List.filterMap_cons]
    simp [enum_callback, htry]

/-- C4 witness: a concrete window whose process query raises is dropped
while the mimic window after it is still collected. -/
theorem c4_witness :
    (enum_callback wFail).1 = true ∧ (enum_callback wFail).2 = none ∧
    get_multilogin_windows ([] ++ wFail :: [w1]) = get_multilogin_windows ([] ++ [w1]) :=
  c4_failed_process_skipped [] [w1] wFail (Or.inl rfl)

/-- C9: `extract_tab_title` always returns at most 43 code points: the
selected title / tab segment is returned unchanged when its length is at
most 40, and otherwise truncated to 40 code points plus `"..."`. -/
theorem c9_tab_title_truncation (title : PyStr) :
    (extract_tab_title title).length ≤ 43 ∧
    extract_tab_title title =
      (if 40 < (tabSeg title).length then (tabSeg title).take 40 ++ ellipsis
       else tabSeg title) := by
  refine ⟨?_, ?_⟩
  · rw [extract_tab_eq]; exact truncate40_length _
  · rw [extract_tab_eq]; rfl

/-- Auxiliary: `show_profile` performs no message post and no file
write. -/
theorem show_fx_class (st : AppState) (idx : Int) :
    ∀ e ∈ show_profile_fx st idx, isPostMsg e = false ∧ isFileWrite e = false := by
  intro e he
  simp only [show_profile_fx] at he
  split at he
  · split at he <;> (cases e <;> try exact ⟨rfl, rfl⟩) <;> (exfalso; simp at he)
  · simp at he

/-- Auxiliary: the URL-injection loop performs no message post and no
file write. -/
theorem open_loop_class (ps : List WindowRecord) (url : PyStr) :
    ∀ e ∈ open_loop_fx ps url, isPostMsg e = false ∧ isFileWrite e = false := by
  intro e he
  cases e <;> try exact ⟨rfl, rfl⟩
  all_goals
    (exfalso;
     simp [open_loop_fx, open_one_fx, send_url_fx, List.mem_flatten] at he)

/-- Auxiliary: the refresh path performs no OS window-control call and no
file write. -/
theorem refresh_fx_class (st : AppState) (env : List WinInfo) :
    ∀ e ∈ (refresh_profiles st env).2,
      isWindowControl e = false ∧ isFileWrite e = false := by
  intro e he
  cases e <;> try exact ⟨rfl, rfl⟩
  all_goals (exfalso; simp [refresh_profiles] at he)

/-- Auxiliary: `nav_prev` performs no message post and no file write. -/
theorem nav_prev_class (st : AppState) :
    ∀ e ∈ (nav_prev st).2, isPostMsg e = false ∧ isFileWrite e = false := by
  intro e he
  simp only [nav_prev] at he
  split at he
  · simp at he
  · exact show_fx_class _ _ e he

/-- Auxiliary: `nav_next` performs no message post and no file write. -/
theorem nav_next_class (st : AppState) :
    ∀ e ∈ (nav_next st).2, isPostMsg e = false ∧ isFileWrite e = false := by
  intro e he
  simp only [nav_next] at he
  split at he
  · simp at he
  · exact show_fx_class _ _ e he

/-- Auxiliary: `nav_top` performs no message post and no file write. -/
theorem nav_top_class (st : AppState) :
    ∀ e ∈ (nav_top st).2, isPostMsg e = false ∧ isFileWrite e = false := by
  intro e he
  simp only [nav_top] at he
  split at he
  · simp at he
  · exact show_fx_class _ _ e he

/-- Auxiliary: `show_current` performs no message post and no file
write. -/
theorem show_current_class (st : AppState) :
    ∀ e ∈ (show_current st).2, isPostMsg e = false ∧ isFileWrite e = false := by
  intro e he
  simp only [show_current] at he
  split at he
  · simp at he
  · split at he
    · exact show_fx_class _ _ e he
    · simp at he

/-- Auxiliary: `show_checked` performs no message post and no file
write. -/
theorem show_checked_class (st : AppState) :
    ∀ e ∈ (show_checked st).2, isPostMsg e = false ∧ isFileWrite e = false := by
  intro e he
  simp only [show_checked] at he
  split at he <;> (cases e <;> try exact ⟨rfl, rfl⟩) <;>
    (exfalso; simp [List.mem_flatten] at he)

/-- Auxiliary: `minimize_checked` performs no message post and no file
write. -/
theorem minimize_checked_class (st : AppState) :
    ∀ e ∈ (minimize_checked st).2, isPostMsg e = false ∧ isFileWrite e = false := by
  intro e he
  simp only [minimize_checked] at he
  split at he <;> (cases e <;> try exact ⟨rfl, rfl⟩) <;>
    (exfalso; simp at he)

/-- Auxiliary: `show_all` performs no message post and no file write. -/
theorem show_all_class (st : AppState) :
    ∀ e ∈ (show_all st).2, isPostMsg e = false ∧ isFileWrite e = false := by
  intro e he
  cases e <;> try exact ⟨rfl, rfl⟩
  all_goals (exfalso; simp [show_all] at he)

/-- Auxiliary: `minimize_all` performs no message post and no file
write. -/
theorem minimize_all_class (st : AppState) :
    ∀ e ∈ (minimize_all st).2, isPostMsg e = false ∧ isFileWrite e = false := by
  intro e he
  cases e <;> try exact ⟨rfl, rfl⟩
  all_goals (exfalso; simp [minimize_all] at he)

/-- Auxiliary: `open_url_checked` performs no message post and no file
write. -/
theorem open_url_class (st : AppState) (entry : PyStr) (ans : Bool) :
    ∀ e ∈ (open_url_checked st entry ans).2,
      isPostMsg e = false ∧ isFileWrite e = false := by
  intro e he
  simp only [open_url_checked] at he
  split at he
  · simp only [List.mem_cons, List.not_mem_nil, or_false] at he
    subst he; exact ⟨rfl, rfl⟩
  · split at he
    · split at he
      · rcases List.mem_cons.mp he with rfl | hin
        · exact ⟨rfl, rfl⟩
        · exact open_loop_class _ _ e hin
      · simp only [List.mem_cons, List.not_mem_nil, or_false] at he
        subst he; exact ⟨rfl, rfl⟩
    · exact open_loop_class _ _ e he

/-- Auxiliary: `close_checked` never writes a file. -/
theorem close_checked_no_write (st : AppState) (ans : Bool) :
    ∀ e ∈ (close_checked st ans).2, isFileWrite e = false := by
  intro e he
  cases e <;> try rfl
  exfalso
  simp only [close_checked] at he
  split at he
  · simp at he
  · split at he <;> simp at he

/-- Auxiliary: `close_all` never writes a file. -/
theorem close_all_no_write (st : AppState) (ans : Bool) :
    ∀ e ∈ (close_all st ans).2, isFileWrite e = false := by
  intro e he
  cases e <;> try rfl
  exfalso
  simp only [close_all] at he
  split at he
  · simp at he
  · split at he <;> simp at he

/-- Auxiliary: no user-triggered handler ever writes a file. -/
theorem dispatch_no_fileWrite (a : UserAction) (st : AppState) :
    ∀ e ∈ (dispatch a st).2, isFileWrite e = false := by
  intro e he
  cases a with
  | refresh env => exact (refresh_fx_class st env e he).2
  | navPrev => exact (nav_prev_class st e he).2
  | navNext => exact (nav_next_class st e he).2
  | navTop => exact (nav_top_class st e he).2
  | showCurrent => exact (show_current_class st e he).2
  | profileClick i => simp [dispatch, on_profile_click] at he
  | profileDoubleClick i => exact (show_fx_class st i e he).2
  | selectAll =>
    simp [dispatch, select_all] at he
    subst he; rfl
  | deselectAll =>
    simp [dispatch, deselect_all] at he
    subst he; rfl
  | invertSelection =>
    simp [dispatch, invert_selection] at he
    subst he; rfl
  | showChecked => exact (show_checked_class st e he).2
  | minimizeChecked => exact (minimize_checked_class st e he).2
  | closeChecked ans => exact close_checked_no_write st ans e he
  | closeAll ans => exact close_all_no_write st ans e he
  | openUrl entry ans => exact (open_url_class st entry ans e he).2
  | showAll => exact (show_all_class st e he).2
  | minimizeAll => exact (minimize_all_class st e he).2
  | toggleOnTop =>
    simp [dispatch, toggle_ui] at he
    subst he; rfl
  | toggleHotkeys =>
    simp [dispatch, toggle_ui] at he
    subst he; rfl

/-- C2: every kept record has exactly the five fields hwnd, title,
profile, tab, pid (structure eta), and a refresh replaces the profile
list with the fresh enumeration result, independently of the previous
list contents. -/
theorem c2_record_shape_and_rebuild (st stPrev : AppState) (env : List WinInfo) :
    (refresh_profiles st env).1.profiles = get_multilogin_windows env ∧
    (refresh_profiles st env).1.profiles = (refresh_profiles stPrev env).1.profiles ∧
    (∀ r : WindowRecord, r = ⟨r.hwnd, r.title, r.profile, r.tab, r.pid⟩) :=
  ⟨rfl, rfl, fun _ => rfl⟩

/-- C3: a declined confirmation leaves the state untouched and posts no
`WM_CLOSE` (for `close_checked` with a non-empty checked set and for
`close_all` with a non-empty profile list), and every `WM_CLOSE` post
any user action performs comes strictly after a confirmation dialog
answered yes at the head of its effect trace. -/
theorem c3_close_requires_confirmation (st : AppState) :
    (get_checked_profiles st ≠ [] →
      (close_checked st false).1 = st ∧
      ∀ hw m, Effect.postMessage hw m ∉ (close_checked st false).2) ∧
    (st.profiles ≠ [] →
      (close_all st false).1 = st ∧
      ∀ hw m, Effect.postMessage hw m ∉ (close_all st false).2) ∧
    (∀ (a : UserAction) (hw m : Nat),
      Effect.postMessage hw m ∈ (dispatch a st).2 →
      ∃ q rest, (dispatch a st).2 = Effect.confirmDialog q true :: rest ∧
        Effect.postMessage hw m ∈ rest) := by
  refine ⟨?_, ?_, ?_⟩
  · intro h
    constructor
    · simp [close_checked, h]
    · intro hw m
      simp [close_checked, h]
  · intro h
    constructor
    · simp [close_all, h]
    · intro hw m
      simp [close_all, h]
  · intro a hw m hmem
    have hpost : isPostMsg (Effect.postMessage hw m) = true := rfl
    cases a with
    | refresh env =>
      have := (refresh_fx_class st env _ hmem).1
      simp [isWindowControl] at this
    | navPrev => have := (nav_prev_class st _ hmem).1; simp [isPostMsg] at this
    | navNext => have := (nav_next_class st _ hmem).1; simp [isPostMsg] at this
    | navTop => have := (nav_top_class st _ hmem).1; simp [isPostMsg] at this
    | showCurrent => have := (show_current_class st _ hmem).1; simp [isPostMsg] at this
    | profileClick i => simp [dispatch, on_profile_click] at hmem
    | profileDoubleClick i =>
      have := (show_fx_class st i _ hmem).1; simp [isPostMsg] at this
    | selectAll => simp [dispatch, select_all] at hmem
    | deselectAll => simp [dispatch, deselect_all] at hmem
    | invertSelection => simp [dispatch, invert_selection] at hmem
    | showChecked => have := (show_checked_class st _ hmem).1; simp [isPostMsg] at this
    | minimizeChecked =>
      have := (minimize_checked_class st _ hmem).1; simp [isPostMsg] at this
    | closeChecked ans =>
      simp only [dispatch] at hmem ⊢
      simp only [close_checked] at hmem
      split at hmem
      · simp at hmem
      · split at hmem
        · rename_i hne hans
          refine ⟨confirmCloseChecked (get_checked_profiles st).length,
            (get_checked_profiles st).map (fun p => Effect.postMessage p.hwnd WM_CLOSE)
              ++ [Effect.setStatus (statusClosingN (get_checked_profiles st).length),
                  Effect.afterSchedule 1000], ?_, ?_⟩
          · simp [close_checked, hne, hans]
          · rcases List.mem_cons.mp hmem with heq | hrest
            · exact absurd heq (by simp)
            · exact hrest
        · simp at hmem
    | closeAll ans =>
      simp only [dispatch] at hmem ⊢
      simp only [close_all] at hmem
      split at hmem
      · simp at hmem
      · split at hmem
        · rename_i hne hans
          refine ⟨confirmCloseAll st.profiles.length,
            st.profiles.map (fun p => Effect.postMessage p.hwnd WM_CLOSE)
              ++ [Effect.setStatus statusClosingAll, Effect.afterSchedule 1000], ?_, ?_⟩
          · simp [close_all, hne, hans]
          · rcases List.mem_cons.mp hmem with heq | hrest
            · exact absurd heq (by simp)
            · exact hrest
        · simp at hmem
    | openUrl entry ans =>
      have := (open_url_class st entry ans _ hmem).1; simp [isPostMsg] at this
    | showAll => have := (show_all_class st _ hmem).1; simp [isPostMsg] at this
    | minimizeAll => have := (minimize_all_class st _ hmem).1; simp [isPostMsg] at this
    | toggleOnTop => simp [dispatch, toggle_ui] at hmem
    | toggleHotkeys => simp [dispatch, toggle_ui] at hmem

/-- C3 witness: with one checked profile, a declined confirmation leaves
the state unchanged. -/
theorem c3_witness : (close_checked stC3 false).1 = stC3 :=
  ((c3_close_requires_confirmation stC3).1 (by decide)).1

/-- C5 counterexample: no user action ever performs a file write — in
particular no screenshot file is ever saved.  The screenshot-saving
surface the spec describes does not exist in this program. -/
theorem c5_no_screenshot_write :
    ¬ ∃ (a : UserAction) (st : AppState) (p : PyStr),
        Effect.fileWrite p ∈ (dispatch a st).2 := by
  rintro ⟨a, st, p, hmem⟩
  have h := dispatch_no_fileWrite a st _ hmem
  simp [isFileWrite] at h

/-- C5 (amended): the program performs no local filesystem writes at
all — neither the user-triggered handlers nor the background timer ever
emit one, and the only filesystem access in the source is the optional
`icon.ico` read at startup. -/
theorem c5_no_file_writes :
    (∀ (a : UserAction) (st : AppState) (e : Effect),
        e ∈ (dispatch a st).2 → isFileWrite e = false) ∧
    (∀ (st : AppState) (sp : Option Nat) (r : Bool) (e : Effect),
        e ∈ (auto_refresh_tick st sp r).2 → isFileWrite e = false) ∧
    startup_fx = [Effect.fileRead "icon.ico".toList] := by
  refine ⟨fun a st e he => dispatch_no_fileWrite a st e he, ?_, rfl⟩
  intro st sp r e he
  cases e <;> try rfl
  exfalso
  cases r <;> simp [auto_refresh_tick] at he

/-- C5 witness: concrete instantiation of the no-write theorem on the
on-top toggle. -/
theorem c5_witness : isFileWrite Effect.uiConfig = false :=
  c5_no_file_writes.1 UserAction.toggleOnTop stC3 Effect.uiConfig
    (by simp [dispatch, toggle_ui])

/-- C6: every refresh starts with the window-list poll, all title-parsing
effects come before all row-rendering effects, and the refresh path
issues no OS window-control call (show / minimize / close / keyboard /
clipboard) at all. -/
theorem c6_refresh_pipeline (st : AppState) (env : List WinInfo) :
    ((refresh_profiles st env).2).head? = some Effect.enumWindows ∧
    (∃ l1 l2, (refresh_profiles st env).2 = l1 ++ l2 ∧
      (∀ e ∈ l1, isRenderFx e = false) ∧ (∀ e ∈ l2, isParseFx e = false)) ∧
    (∀ e ∈ (refresh_profiles st env).2, isWindowControl e = false) := by
  refine ⟨rfl, ?_, fun e he => (refresh_fx_class st env e he).1⟩
  refine ⟨Effect.enumWindows ::
      (get_multilogin_windows env).map (fun r => Effect.parseTitle r.title),
    (Effect.destroyRows ::
      ((get_multilogin_windows env).zip
        ((get_multilogin_windows env).map
          (fun p => dictGet (old_states st.profiles st.checks) p.title))).enum.map
        (fun ic => Effect.renderRow ic.1 ic.2.1.profile ic.2.1.tab ic.2.2))
      ++ [Effect.setStatus (statusFound (get_multilogin_windows env).length)],
    ?_, ?_, ?_⟩
  · simp [refresh_profiles]
  · intro e he
    rcases List.mem_cons.mp he with rfl | hmem
    · rfl
    · obtain ⟨r, hr, rfl⟩ := List.mem_map.mp hmem
      rfl
  · intro e he
    rcases List.mem_append.mp he with hmem | hmem
    · rcases List.mem_cons.mp hmem with rfl | hmem
      · rfl
      · obtain ⟨ic, hic, rfl⟩ := List.mem_map.mp hmem
        rfl
    · simp only [List.mem_cons, List.not_mem_nil, or_false] at hmem
      subst hmem; rfl

/-- C6 witness: concrete instantiation on the poll effect of a refresh. -/
theorem c6_witness : isWindowControl Effect.enumWindows = false :=
  (c6_refresh_pipeline stC3 []).2.2 Effect.enumWindows (by decide)

/-- C7: a body iteration of the background timer thread never changes the
profile model, performs no OS window-control call and mutates no UI
element — while running it only reads the interval spinner, sleeps and
marshals `refresh_profiles` onto the Tk event queue with
`root.after(0, ...)`; and `__init__` starts exactly one background
thread.  OS window operations happen only in `dispatch`, i.e. in
user-triggered handlers on the UI thread. -/
theorem c7_background_tick (st : AppState) (spinnerVal : Option Nat) (running : Bool) :
    (auto_refresh_tick st spinnerVal running).1 = st ∧
    (running = true →
      Effect.afterSchedule 0 ∈ (auto_refresh_tick st spinnerVal running).2) ∧
    (∀ e ∈ (auto_refresh_tick st spinnerVal running).2,
      isWindowControl e = false ∧ isUiMutation e = false) ∧
    backgroundThreads.length = 1 := by
  refine ⟨rfl, ?_, ?_, rfl⟩
  · intro h
    subst h
    simp [auto_refresh_tick]
  · intro e he
    cases running <;> simp [auto_refresh_tick] at he
    · rcases he with rfl | rfl <;> exact ⟨rfl, rfl⟩
    · rcases he with rfl | rfl | rfl <;> exact ⟨rfl, rfl⟩

/-- C7 witness: a running tick with spinner value 3 schedules a refresh
on the UI thread. -/
theorem c7_witness :
    Effect.afterSchedule 0 ∈ (auto_refresh_tick stC3 (some 3) true).2 :=
  (c7_background_tick stC3 (some 3) true).2.1 rfl

/-- Auxiliary: `nav_next` on a non-empty list with a selected index moves
to the successor index modulo the length. -/
theorem nav_next_state (st : AppState) (h0 : st.profiles.length ≠ 0) (i : Int)
    (hsel : st.selectedIndex = some i) :
    (nav_next st).1 =
      { st with selectedIndex := some ((i + 1) % (st.profiles.length : Int)) } := by
  simp [nav_next, h0, hsel]

/-- Auxiliary: `nav_prev` on a non-empty list with a selected index moves
to the predecessor index modulo the length. -/
theorem nav_prev_sel (st : AppState) (h0 : st.profiles.length ≠ 0) (i : Int)
    (hsel : st.selectedIndex = some i) :
    (nav_prev st).1.selectedIndex =
      some ((i - 1) % (st.profiles.length : Int)) := by
  simp [nav_prev, h0, hsel]

/-- C8 counterexample: with three profiles and a stale
`selected_index = 5` (reachable after the list shrinks), `nav_next`
followed by `nav_prev` yields 2, not the original 5 — the round trip does
not restore an out-of-range selected index. -/
theorem c8_roundtrip_counterexample :
    st8.selectedIndex = some 5 ∧ st8.profiles.length = 3 ∧
    (nav_prev (nav_next st8).1).1.selectedIndex = some 2 := by decide

/-- C8 (amended): `nav_next` and `nav_prev` are no-ops on an empty
profile list, always leave `selected_index` inside `[0, len-1]` by
modular wrap-around on a non-empty list, and `nav_next` followed by
`nav_prev` restores the original `selected_index` whenever it was set to
an in-range value `0 ≤ i < len` (a stale out-of-range value is instead
normalised into range). -/
theorem c8_nav_bounds_roundtrip (st : AppState) :
    (st.profiles = [] → nav_next st = (st, []) ∧ nav_prev st = (st, [])) ∧
    (st.profiles ≠ [] →
      (∃ j : Int, (nav_next st).1.selectedIndex = some j ∧ 0 ≤ j ∧
        j < st.profiles.length) ∧
      (∃ j : Int, (nav_prev st).1.selectedIndex = some j ∧ 0 ≤ j ∧
        j < st.profiles.length)) ∧
    (∀ i : Int, st.selectedIndex = some i → 0 ≤ i → i < st.profiles.length →
      (nav_prev (nav_next st).1).1.selectedIndex = some i) := by
  refine ⟨?_, ?_, ?_⟩
  · intro h
    have h0 : st.profiles.length = 0 := by simp [h]
    exact ⟨by simp [nav_next, h0], by simp [nav_prev, h0]⟩
  · intro h
    have h0 : st.profiles.length ≠ 0 := by simpa using h
    have hpos : (0 : Int) < (st.profiles.length : Int) := by
      exact_mod_cast Nat.pos_of_ne_zero h0
    constructor
    · cases hsel : st.selectedIndex with
      | none => exact ⟨0, by simp [nav_next, h0, hsel], le_refl 0, hpos⟩
      | some i =>
        exact ⟨(i + 1) % (st.profiles.length : Int),
          by simp [nav_next, h0, hsel],
          Int.emod_nonneg _ (by omega), Int.emod_lt_of_pos _ hpos⟩
    · cases hsel : st.selectedIndex with
      | none => exact ⟨0, by simp [nav_prev, h0, hsel], le_refl 0, hpos⟩
      | some i =>
        exact ⟨(i - 1) % (st.profiles.length : Int),
          by simp [nav_prev, h0, hsel],
          Int.emod_nonneg _ (by omega), Int.emod_lt_of_pos _ hpos⟩
  · intro i hsel h0i hlt
    have h0 : st.profiles.length ≠ 0 := by
      intro h
      rw [h] at hlt
      simp at hlt
      omega
    have hkey : (((i + 1) % (st.profiles.length : Int)) - 1)
        % (st.profiles.length : Int) = i := by
      rcases lt_or_eq_of_le (by omega : i + 1 ≤ (st.profiles.length : Int)) with hc | hc
      · rw [Int.emod_eq_of_lt (by omega) hc, add_sub_cancel_right,
          Int.emod_eq_of_lt h0i hlt]
      · rw [hc, Int.emod_self]
        have hrw : (0 : Int) - 1 = ((st.profiles.length : Int) - 1)
            + (st.profiles.length : Int) * (-1) := by ring
        rw [hrw, Int.add_mul_emod_self_left,
          Int.emod_eq_of_lt (by omega) (by omega)]
        omega
    rw [nav_next_state st h0 i hsel]
    set st2 : AppState :=
      { st with selectedIndex := some ((i + 1) % (st.profiles.length : Int)) } with hst2
    have h02 : st2.profiles.length ≠ 0 := h0
    have hsel2 : st2.selectedIndex = some ((i + 1) % (st.profiles.length : Int)) := rfl
    rw [nav_prev_sel st2 h02 ((i + 1) % (st.profiles.length : Int)) hsel2]
    have hlen2 : st2.profiles.length = st.profiles.length := rfl
    rw [hlen2, hkey]

/-- C8 witness: with two profiles and in-range `selected_index = 1`,
next followed by previous restores index 1. -/
theorem c8_witness : (nav_prev (nav_next st8w).1).1.selectedIndex = some 1 :=
  (c8_nav_bounds_roundtrip st8w).2.2 1 rfl (by decide) (by decide)

/-- Auxiliary: folding the state-restore update over pairs none of which
match the key leaves the accumulator unchanged. -/
theorem foldl_dict_keep (t : PyStr) :
    ∀ (pairs : List (PyStr × Bool)) (acc : Bool),
      (∀ pc ∈ pairs, pc.1 ≠ t) →
      pairs.foldl (fun acc pc => if pc.1 = t then pc.2 else acc) acc = acc := by
  intro pairs
  induction pairs with
  | nil => intro acc _; rfl
  | cons p ps ih =>
    intro acc h
    have hp : p.1 ≠ t := h p (List.mem_cons_self p ps)
    simp only [List.foldl_cons, if_neg hp]
    exact ih acc fun pc hpc => h pc (List.mem_cons_of_mem p hpc)

/-- Auxiliary: a key absent from the saved dictionary restores to
`false`. -/
theorem dictGet_absent (pairs : List (PyStr × Bool)) (t : PyStr)
    (h : ∀ pc ∈ pairs, pc.1 ≠ t) : dictGet pairs t = false :=
  foldl_dict_keep t pairs false h

/-- Auxiliary: with pairwise-distinct keys, the dictionary lookup returns
the stored value. -/
theorem dictGet_unique :
    ∀ (pairs : List (PyStr × Bool)), (pairs.map Prod.fst).Nodup →
      ∀ k v, (k, v) ∈ pairs → dictGet pairs k = v := by
  intro pairs
  induction pairs with
  | nil =>
    intro _ k v hm
    simp at hm
  | cons p ps ih =>
    intro hnd k v hm
    simp only [List.map_cons, List.nodup_cons] at hnd
    obtain ⟨hnotin, hnd'⟩ := hnd
    rcases List.mem_cons.mp hm with heq | hmem
    · subst heq
      have hstep : dictGet ((k, v) :: ps) k
          = ps.foldl (fun acc pc => if pc.1 = k then pc.2 else acc) v := by
        simp [dictGet]
      rw [hstep]
      refine foldl_dict_keep k ps v ?_
      intro pc hpc hk
      apply hnotin
      show k ∈ List.map Prod.fst ps
      rw [← hk]
      exact List.mem_map_of_mem Prod.fst hpc
    · have hpk : p.1 ≠ k := by
        intro hk
        apply hnotin
        show p.1 ∈ List.map Prod.fst ps
        rw [hk]
        exact List.mem_map_of_mem Prod.fst hmem
      have hstep : dictGet (p :: ps) k = dictGet ps k := by
        simp [dictGet, if_neg hpk]
      rw [hstep]
      exact ih hnd' k v hmem

/-- Auxiliary: the first components of a zip form a sublist of the first
list. -/
theorem map_fst_zip_sublist :
    ∀ (ps : List WindowRecord) (cs : List Bool),
      List.Sublist ((ps.zip cs).map Prod.fst) ps := by
  intro ps
  induction ps with
  | nil => intro cs; simp
  | cons p ps ih =>
    intro cs
    cases cs with
    | nil => simp
    | cons c cs => simpa using List.Sublist.cons₂ p (ih cs)

/-- C10 counterexample: two windows share the raw title `"A"`; before the
refresh the first is checked and the second is not, after a refresh that
reproduces both titles the first is unchecked — the dict keyed by title
kept only the last duplicate's state, so a window whose title persisted
did not keep its checked state. -/
theorem c10_duplicate_title_counterexample :
    st10.profiles.map (fun p => p.title) = [['A'], ['A']] ∧
    st10.checks = [true, false] ∧
    (refresh_profiles st10 env10).1.profiles.map (fun p => p.title) = [['A'], ['A']] ∧
    (refresh_profiles st10 env10).1.checks = [false, false] := by decide

/-- C10 (amended): `refresh_profiles` restores checkbox state keyed by
raw window title with last-occurrence-wins semantics: every new window's
checkbox is set to the saved state of the last previous window bearing
its title; windows whose title was not previously listed start
unchecked; and when the previous titles were pairwise distinct, every
persisting title keeps exactly its previous checked state. -/
theorem c10_checkbox_preservation (st : AppState) (env : List WinInfo) :
    ((refresh_profiles st env).1.checks =
      (refresh_profiles st env).1.profiles.map
        (fun p => dictGet (old_states st.profiles st.checks) p.title)) ∧
    (∀ t : PyStr, (∀ p ∈ st.profiles, p.title ≠ t) →
      dictGet (old_states st.profiles st.checks) t = false) ∧
    ((st.profiles.map (fun p => p.title)).Nodup →
      ∀ q c, (q, c) ∈ st.profiles.zip st.checks →
        dictGet (old_states st.profiles st.checks) q.title = c) := by
  refine ⟨rfl, ?_, ?_⟩
  · intro t h
    refine dictGet_absent _ _ ?_
    intro pc hpc
    simp only [old_states, List.mem_map] at hpc
    obtain ⟨⟨q, c⟩, hqc, rfl⟩ := hpc
    exact h q (List.of_mem_zip hqc).1
  · intro hnd q c hm
    have hkeys : ((old_states st.profiles st.checks).map Prod.fst).Nodup := by
      have hsub : List.Sublist ((st.profiles.zip st.checks).map Prod.fst)
          st.profiles := map_fst_zip_sublist st.profiles st.checks
      have hrw : (old_states st.profiles st.checks).map Prod.fst
          = ((st.profiles.zip st.checks).map Prod.fst).map (fun p => p.title) := by
        simp [old_states, List.map_map]
      rw [hrw]
      exact List.Nodup.sublist (hsub.map (fun p => p.title)) hnd
    exact dictGet_unique _ hkeys q.title c
      (by simpa [old_states] using
        List.mem_map_of_mem (fun pc => (pc.1.title, pc.2)) hm)

/-- C10 witness: with a single previously-checked profile titled `"A"`,
the saved dictionary restores `true` for that title. -/
theorem c10_witness :
    dictGet (old_states stC3.profiles stC3.checks) (recA 1).title = true :=
  (c10_checkbox_preservation stC3 []).2.2 (by decide) (recA 1) true (by decide)

end MLM
